import Mathlib

/-!
Shallow embedding of the token-ledger and subscription-lifecycle core of the
client-sure backend, together with theorems checking the specification's
claims against it.

Conventions of the embedding:
* JS `Date` values are modelled as `Int` milliseconds since the epoch; `now`
  is passed explicitly to every function that reads the clock.
* JS numbers holding token counts are modelled as `Int` (they are signed in
  the source).
* Mongoose documents become Lean structures; a thrown error becomes an
  explicit error constructor; `save` only happens on the success path, which
  the pure functions reflect by returning the updated record only there.
-/

namespace ClientSure

/-! ## Data model (User schema, token buckets) -/

/-- `dailyTokens` sub-document of the User schema. -/
structure DailyBucket where
  current : Int
  limit : Int
  usedToday : Int
  deriving Repr, DecidableEq

/-- `purchasedTokens` sub-document of the User schema. -/
structure PurchasedBucket where
  current : Int
  total : Int
  used : Int
  deriving Repr, DecidableEq

/-- `bonusTokens` sub-document of the User schema. -/
structure BonusBucket where
  current : Int
  initial : Int
  used : Int
  deriving Repr, DecidableEq

/-- `prizeTokens` sub-document of the User schema. -/
structure PrizeBucket where
  current : Int
  used : Int
  deriving Repr, DecidableEq

/-- Embedded `subscription` sub-document of the User schema. -/
structure Subscription where
  startDate : Option Int
  endDate : Option Int
  dailyTokens : Int
  monthlyAllocation : Int
  isActive : Bool
  deriving Repr, DecidableEq

/-- `tokenStats` sub-document of the User schema. -/
structure TokenStats where
  totalUsed : Int
  dailyUsed : Int
  purchasedUsed : Int
  bonusUsed : Int
  prizeUsed : Int
  planPeriodUsed : Int
  deriving Repr, DecidableEq

/-- The User aggregate, restricted to the fields the token engine touches. -/
structure User where
  subscription : Subscription
  dailyTokens : DailyBucket
  purchasedTokens : PurchasedBucket
  bonusTokens : BonusBucket
  prizeTokens : PrizeBucket
  tokens : Int
  tokensUsedTotal : Int
  tokensUsedToday : Int
  monthlyTokensTotal : Int
  monthlyTokensUsed : Int
  monthlyTokensRemaining : Int
  tokenStats : TokenStats
  deriving Repr, DecidableEq

/-- Sum of the four buckets' `current` values (no expiry check). -/
def bucketSum (u : User) : Int :=
  u.dailyTokens.current + u.purchasedTokens.current +
    u.bonusTokens.current + u.prizeTokens.current

/-! ## utils/enhancedTokenUtils.js -/

/-- `calculateTotalTokens(user)`: 0 when `!endDate || endDate < now`,
otherwise the sum of the four buckets' `current` values. -/
def calculateTotalTokens (u : User) (now : Int) : Int :=
  match u.subscription.endDate with
  | none => 0
  | some endDate =>
    if endDate < now then 0
    else
      u.dailyTokens.current + u.purchasedTokens.current +
        u.bonusTokens.current + u.prizeTokens.current

/-- `planActive` as computed inside `getTokenBreakdown`:
`user.subscription?.endDate && user.subscription.endDate > now`. -/
def planActive (u : User) (now : Int) : Bool :=
  match u.subscription.endDate with
  | none => false
  | some endDate => now < endDate

/-- Result shape of `getTokenBreakdown` (the fields the claims mention). -/
structure Breakdown where
  dailyCurrent : Int
  purchasedCurrent : Int
  bonusCurrent : Int
  prizeCurrent : Int
  total : Int
  isActive : Bool
  deriving Repr, DecidableEq

/-- `getTokenBreakdown(user)`: every bucket's `current` and the `total` are
reported as 0 unless `planActive`. -/
def getTokenBreakdown (u : User) (now : Int) : Breakdown :=
  let active := planActive u now
  { dailyCurrent := if active then u.dailyTokens.current else 0
    purchasedCurrent := if active then u.purchasedTokens.current else 0
    bonusCurrent := if active then u.bonusTokens.current else 0
    prizeCurrent := if active then u.prizeTokens.current else 0
    total := if active then calculateTotalTokens u now else 0
    isActive := active }

/-- Per-bucket deduction amounts returned by `deductTokens`. -/
structure DeductionBreakdown where
  daily : Int
  purchased : Int
  bonus : Int
  prize : Int
  deriving Repr, DecidableEq

/-- Outcome of `deductTokens`: the two thrown errors, or the saved user
together with the deduction breakdown. -/
inductive DeductResult where
  | expired
  | insufficient
  | ok (user : User) (breakdown : DeductionBreakdown)
  deriving Repr, DecidableEq

/-- One `if (remaining > 0 && bucket.current > 0) { min(remaining, current) }`
step of `deductTokens`; outside the guard the bucket is untouched (0 taken). -/
def takeFromBucket (remaining current : Int) : Int :=
  if 0 < remaining ∧ 0 < current then min remaining current else 0

/-- The unconditional body of `deductTokens` after its two guards: the greedy
debit daily → purchased → bonus → prize, the statistics updates and the
legacy-field sync, exactly as in the source. -/
def applyDeduction (u : User) (tokensToDeduct : Int) (now : Int) :
    User × DeductionBreakdown :=
  let d1 := takeFromBucket tokensToDeduct u.dailyTokens.current
  let r1 := tokensToDeduct - d1
  let d2 := takeFromBucket r1 u.purchasedTokens.current
  let r2 := r1 - d2
  let d3 := takeFromBucket r2 u.bonusTokens.current
  let r3 := r2 - d3
  let d4 := takeFromBucket r3 u.prizeTokens.current
  let stats : TokenStats :=
    { totalUsed := u.tokenStats.totalUsed + tokensToDeduct
      dailyUsed := u.tokenStats.dailyUsed + d1
      purchasedUsed := u.tokenStats.purchasedUsed + d2
      bonusUsed := u.tokenStats.bonusUsed + d3
      prizeUsed := u.tokenStats.prizeUsed + d4
      planPeriodUsed := u.tokenStats.planPeriodUsed + tokensToDeduct }
  let u1 : User :=
    { u with
      dailyTokens :=
        { u.dailyTokens with
          current := u.dailyTokens.current - d1
          usedToday := u.dailyTokens.usedToday + d1 }
      purchasedTokens :=
        { u.purchasedTokens with
          current := u.purchasedTokens.current - d2
          used := u.purchasedTokens.used + d2 }
      bonusTokens :=
        { u.bonusTokens with
          current := u.bonusTokens.current - d3
          used := u.bonusTokens.used + d3 }
      prizeTokens :=
        { u.prizeTokens with
          current := u.prizeTokens.current - d4
          used := u.prizeTokens.used + d4 }
      tokenStats := stats
      tokensUsedTotal := stats.totalUsed
      tokensUsedToday := u.dailyTokens.usedToday + d1
      monthlyTokensUsed := u.monthlyTokensUsed + tokensToDeduct
      monthlyTokensRemaining :=
        if 0 < u.monthlyTokensRemaining then
          max 0 (u.monthlyTokensRemaining - tokensToDeduct)
        else u.monthlyTokensRemaining }
  let u2 : User := { u1 with tokens := calculateTotalTokens u1 now }
  (u2, ⟨d1, d2, d3, d4⟩)

/-- `deductTokens(userId, tokensToDeduct, reason)` on an already-fetched user:
expiry check (`!endDate || endDate < now`), balance check
(`availableTokens < tokensToDeduct`), then the greedy debit. -/
def deductTokens (u : User) (tokensToDeduct : Int) (now : Int) : DeductResult :=
  match u.subscription.endDate with
  | none => .expired
  | some endDate =>
    if endDate < now then .expired
    else
      let availableTokens := calculateTotalTokens u now
      if availableTokens < tokensToDeduct then .insufficient
      else
        let p := applyDeduction u tokensToDeduct now
        .ok p.1 p.2

/-- The persisted user after a `deductTokens` call: `save` runs only on the
success path, so an error leaves the stored document untouched. -/
def deductAndSave (u : User) (tokensToDeduct : Int) (now : Int) : User :=
  match deductTokens u tokensToDeduct now with
  | .ok u' _ => u'
  | _ => u

/-- The breakdown returned by a successful `deductTokens` call. -/
def deductionOf (u : User) (tokensToDeduct : Int) (now : Int) :
    Option DeductionBreakdown :=
  match deductTokens u tokensToDeduct now with
  | .ok _ b => some b
  | _ => none

/-- The subscription counts as expired for `deductTokens` and its siblings
when `!endDate || endDate < now`. -/
def subscriptionInactive (u : User) (now : Int) : Prop :=
  u.subscription.endDate = none ∨
    ∃ e, u.subscription.endDate = some e ∧ e < now

/-- Amount the greedy debit takes from the daily bucket. -/
def deductDaily (u : User) (a : Int) : Int :=
  takeFromBucket a u.dailyTokens.current

/-- Amount the greedy debit takes from the purchased bucket. -/
def deductPurchased (u : User) (a : Int) : Int :=
  takeFromBucket (a - deductDaily u a) u.purchasedTokens.current

/-- Amount the greedy debit takes from the bonus bucket. -/
def deductBonus (u : User) (a : Int) : Int :=
  takeFromBucket (a - deductDaily u a - deductPurchased u a)
    u.bonusTokens.current

/-- Amount the greedy debit takes from the prize bucket. -/
def deductPrize (u : User) (a : Int) : Int :=
  takeFromBucket
    (a - deductDaily u a - deductPurchased u a - deductBonus u a)
    u.prizeTokens.current

/-! ## Helper lemmas about the deduction engine -/

theorem takeFromBucket_eq_min (r c : Int) (hr : 0 ≤ r) (hc : 0 ≤ c) :
    takeFromBucket r c = min r c := by
  unfold takeFromBucket
  split <;> omega

theorem takeFromBucket_nonneg (r c : Int) : 0 ≤ takeFromBucket r c := by
  unfold takeFromBucket
  split <;> omega

theorem takeFromBucket_le_left (r c : Int) (hr : 0 ≤ r) :
    takeFromBucket r c ≤ r := by
  unfold takeFromBucket
  split <;> omega

theorem calcTotal_active (u : User) (now e : Int)
    (hend : u.subscription.endDate = some e) (hnow : ¬ e < now) :
    calculateTotalTokens u now = bucketSum u := by
  unfold calculateTotalTokens bucketSum
  rw [hend]
  simp [hnow]

theorem applyDeduction_snd (u : User) (a now : Int) :
    (applyDeduction u a now).2 =
      ⟨deductDaily u a, deductPurchased u a, deductBonus u a,
        deductPrize u a⟩ := rfl

theorem applyDeduction_bucketSum (u : User) (a now : Int) :
    bucketSum (applyDeduction u a now).1 =
      bucketSum u - (deductDaily u a + deductPurchased u a +
        deductBonus u a + deductPrize u a) := by
  unfold bucketSum
  show u.dailyTokens.current - deductDaily u a +
      (u.purchasedTokens.current - deductPurchased u a) +
      (u.bonusTokens.current - deductBonus u a) +
      (u.prizeTokens.current - deductPrize u a) = _
  ring

theorem deduct_sum_eq (u : User) (a : Int) (ha : 0 ≤ a)
    (h : a ≤ bucketSum u) :
    deductDaily u a + deductPurchased u a + deductBonus u a +
      deductPrize u a = a := by
  unfold bucketSum at h
  simp only [deductDaily, deductPurchased, deductBonus, deductPrize,
    takeFromBucket]
  repeat' split
  all_goals omega

theorem deductTokens_eq_ok (u : User) (a now e : Int)
    (hend : u.subscription.endDate = some e) (hnow : ¬ e < now)
    (henough : ¬ calculateTotalTokens u now < a) :
    deductTokens u a now =
      .ok (applyDeduction u a now).1 (applyDeduction u a now).2 := by
  unfold deductTokens
  rw [hend]
  dsimp only
  rw [if_neg hnow, if_neg henough]

theorem deductTokens_ok_inv (u u' : User) (b : DeductionBreakdown)
    (a now : Int) (h : deductTokens u a now = .ok u' b) :
    u' = (applyDeduction u a now).1 ∧ b = (applyDeduction u a now).2 ∧
      ∃ e, u.subscription.endDate = some e ∧ ¬ e < now ∧
        ¬ calculateTotalTokens u now < a := by
  unfold deductTokens at h
  split at h
  · exact absurd h (by simp)
  · rename_i e hend
    split at h
    · exact absurd h (by simp)
    · rename_i hnow
      dsimp only at h
      split at h
      · exact absurd h (by simp)
      · rename_i henough
        injection h with h1 h2
        exact ⟨h1.symm, h2.symm, e, hend, hnow, henough⟩

/-! ## Concrete fixtures for witnesses and counterexamples -/

/-- Zeroed token statistics (schema defaults). -/
def zeroStats : TokenStats := ⟨0, 0, 0, 0, 0, 0⟩

/-- A user record with the given subscription end date and bucket balances;
the remaining fields take the schema defaults. -/
def mkUser (endDate : Option Int) (daily purchased bonus prize : Int) :
    User :=
  { subscription :=
      { startDate := some 0, endDate := endDate, dailyTokens := 100
        monthlyAllocation := 0, isActive := true }
    dailyTokens := { current := daily, limit := 100, usedToday := 0 }
    purchasedTokens := { current := purchased, total := purchased, used := 0 }
    bonusTokens := { current := bonus, initial := bonus, used := 0 }
    prizeTokens := { current := prize, used := 0 }
    tokens := daily + purchased + bonus + prize
    tokensUsedTotal := 0
    tokensUsedToday := 0
    monthlyTokensTotal := 0
    monthlyTokensUsed := 0
    monthlyTokensRemaining := 0
    tokenStats := zeroStats }

/-- The spec's spillover fixture: daily=5, purchased=10, bonus=0, prize=0,
subscription valid until time 100. -/
def spilloverUser : User := mkUser (some 100) 5 10 0 0

/-- A user whose subscription ended at time 0. -/
def expiredUser : User := mkUser (some 0) 5 10 0 0

/-- A user whose subscription ends exactly at time 1000, holding one daily
token. -/
def boundaryUser : User := mkUser (some 1000) 1 0 0 0

/-! ## Subscription lifecycle (webhook/verification activation paths) -/

/-- Plan reference data consumed by activation. -/
structure Plan where
  durationDays : Int
  dailyTokens : Int
  bonusTokens : Int
  deriving Repr, DecidableEq

/-- `24 * 60 * 60 * 1000`, the millisecond factor in every
`new Date(startDate.getTime() + plan.durationDays * 24 * 60 * 60 * 1000)`. -/
def msPerDay : Int := 24 * 60 * 60 * 1000

/-- Effect of `processSubscriptionWebhook` (PhonePe) on the user when
`state === 'COMPLETED'`: subscription window from now, legacy `tokens` set
to the plan's daily tokens, monthly counters reset; no bucket is touched. -/
def processSubscriptionWebhookUser (u : User) (plan : Plan) (now : Int) :
    User :=
  let monthlyAllocation := plan.durationDays * plan.dailyTokens
  { u with
    subscription :=
      { startDate := some now
        endDate := some (now + plan.durationDays * msPerDay)
        dailyTokens := plan.dailyTokens
        monthlyAllocation := monthlyAllocation
        isActive := true }
    tokens := plan.dailyTokens
    monthlyTokensTotal := monthlyAllocation
    monthlyTokensRemaining := monthlyAllocation }

/-- Effect of `verifySubscriptionPayment` (Razorpay) on an existing user:
the same window reset plus an overwrite of the bonus bucket with the plan's
bonus tokens; the daily, purchased and prize buckets are untouched. -/
def verifySubscriptionRenewUser (u : User) (plan : Plan) (now : Int) :
    User :=
  let monthlyAllocation := plan.durationDays * plan.dailyTokens
  { u with
    subscription :=
      { startDate := some now
        endDate := some (now + plan.durationDays * msPerDay)
        dailyTokens := plan.dailyTokens
        monthlyAllocation := monthlyAllocation
        isActive := true }
    tokens := plan.dailyTokens
    monthlyTokensTotal := monthlyAllocation
    monthlyTokensRemaining := monthlyAllocation
    bonusTokens :=
      { current := plan.bonusTokens
        initial := plan.bonusTokens
        used := 0 } }

/-- User document built by `verifySubscriptionPayment` (Razorpay) for a
guest checkout: only the legacy `tokens`, the bonus bucket and the
subscription are populated; every other bucket takes its schema default —
in particular `dailyTokens.current` defaults to 0. -/
def verifySubscriptionNewUser (plan : Plan) (now : Int) : User :=
  let monthlyAllocation := plan.durationDays * plan.dailyTokens
  { subscription :=
      { startDate := some now
        endDate := some (now + plan.durationDays * msPerDay)
        dailyTokens := plan.dailyTokens
        monthlyAllocation := monthlyAllocation
        isActive := true }
    dailyTokens := { current := 0, limit := 100, usedToday := 0 }
    purchasedTokens := { current := 0, total := 0, used := 0 }
    bonusTokens :=
      { current := plan.bonusTokens, initial := plan.bonusTokens, used := 0 }
    prizeTokens := { current := 0, used := 0 }
    tokens := plan.dailyTokens
    tokensUsedTotal := 0
    tokensUsedToday := 0
    monthlyTokensTotal := monthlyAllocation
    monthlyTokensUsed := 0
    monthlyTokensRemaining := monthlyAllocation
    tokenStats := zeroStats }

/-- Existing-user renewal branch of the dummy-checkout `handleWebhook`
(`payment.success`): window from now, `tokens` and monthly counters reset. -/
def dummyWebhookRenewUser (u : User) (plan : Plan) (now : Int) : User :=
  let monthlyAllocation := plan.durationDays * plan.dailyTokens
  { u with
    tokens := plan.dailyTokens
    tokensUsedToday := 0
    monthlyTokensTotal := monthlyAllocation
    monthlyTokensUsed := 0
    monthlyTokensRemaining := monthlyAllocation
    subscription :=
      { startDate := some now
        endDate := some (now + plan.durationDays * msPerDay)
        dailyTokens := plan.dailyTokens
        monthlyAllocation := monthlyAllocation
        isActive := true } }

/-- The end-to-end scenario plan: dailyTokenQuota=100, durationDays=30,
bonusTokens=500. -/
def scenarioPlan : Plan := ⟨30, 100, 500⟩

/-! ## Payment reconciliation: PhonePe webhook processing -/

/-- TokenTransaction fields touched by the token-purchase webhook. -/
structure TokenTxn where
  status : String
  tokens : Int
  deriving Repr, DecidableEq

/-- `processTokenWebhook` (PhonePe): on `COMPLETED` the transaction is
marked completed and `user.tokens += transaction.tokens` — with no check of
the transaction's current status; on `FAILED` the transaction is marked
failed; otherwise nothing changes. -/
def processTokenWebhook (state : String) (txn : TokenTxn) (u : User) :
    TokenTxn × User :=
  if state = "COMPLETED" then
    ({ txn with status := "completed" },
      { u with tokens := u.tokens + txn.tokens })
  else if state = "FAILED" then
    ({ txn with status := "failed" }, u)
  else (txn, u)

/-- Webhook signature check from `phonepeService.js`: the `Authorization`
header must start with `SHA256 ` and the remainder must equal the expected
hash (the crypto digest is abstracted as the `expectedHash` argument). -/
def verifyWebhookSignature (authHeader : Option String)
    (expectedHash : String) : Bool :=
  match authHeader with
  | none => false
  | some h =>
    if h.take 7 = "SHA256 " then decide (h.drop 7 = expectedHash)
    else false

/-- HTTP response of the webhook endpoint. -/
structure WebhookHttpResult where
  status : Int
  ok : Bool
  deriving Repr, DecidableEq

/-- `handleWebhook` (PhonePe): invalid signature → respond 401 and never
start processing; valid signature with a parsable payload → respond 200 and
process asynchronously; a parse failure after a valid signature is caught
and answered with 200. The second component records whether `processWebhook`
was invoked (the only path that can mutate order/transaction/user state). -/
def handleWebhook (authHeader : Option String) (expectedHash : String)
    (payloadValid : Bool) : WebhookHttpResult × Bool :=
  if verifyWebhookSignature authHeader expectedHash = false then
    (⟨401, false⟩, false)
  else if payloadValid then (⟨200, true⟩, true)
  else (⟨200, false⟩, false)

/-! ## Purchase initiation (order creation with gateway call) -/

/-- Gateway order returned by a successful `createOrder` call to a payment
provider. -/
structure GatewayOrder where
  id : String
  deriving Repr, DecidableEq

/-- Local subscription Order fields touched by purchase initiation. -/
structure PendingOrder where
  status : String
  paymentStatus : String
  providerOrderId : Option String
  deriving Repr, DecidableEq

/-- Local TokenTransaction fields touched by purchase initiation. -/
structure PendingTokenTxn where
  status : String
  providerOrderId : Option String
  deriving Repr, DecidableEq

/-- `createOrder` (subscription checkout): a pending Order is created, the
gateway is called, and on gateway failure the pending Order is deleted
(`Order.findByIdAndDelete`) before responding 500. Returns the surviving
local record and the HTTP status. -/
def createOrder (gateway : Except String GatewayOrder) :
    Option PendingOrder × Int :=
  let order : PendingOrder := ⟨"pending", "pending", none⟩
  match gateway with
  | .ok g => (some { order with providerOrderId := some g.id }, 200)
  | .error _ => (none, 500)

/-- `createTokenOrder` (Razorpay token top-up): a pending TokenTransaction
is created, the gateway is called, and on gateway failure the catch block
only responds 500 — the pending transaction is never deleted. -/
def createTokenOrder (gateway : Except String GatewayOrder) :
    Option PendingTokenTxn × Int :=
  let txn : PendingTokenTxn := ⟨"pending", none⟩
  match gateway with
  | .ok g => (some { txn with providerOrderId := some g.id }, 200)
  | .error _ => (some txn, 500)

/-- `createTokenPayment` (PhonePe token top-up): same shape as
`createTokenOrder` — the catch block responds 500 and leaves the pending
TokenTransaction in place. -/
def createTokenPayment (gateway : Except String GatewayOrder) :
    Option PendingTokenTxn × Int :=
  let txn : PendingTokenTxn := ⟨"pending", none⟩
  match gateway with
  | .ok g => (some { txn with providerOrderId := some g.id }, 200)
  | .error _ => (some txn, 500)

/-- `createTokenPurchase` (tokenController, `POST /api/tokens/purchase`):
the pending TokenTransaction is saved inside a mongoose session; a gateway
failure reaches the catch block, which calls `session.abortTransaction()`,
discarding the uncommitted save — so no local record survives — before
responding 500; on success the session is committed. -/
def createTokenPurchase (gateway : Except String GatewayOrder) :
    Option PendingTokenTxn × Int :=
  let txn : PendingTokenTxn := ⟨"pending", none⟩
  match gateway with
  | .ok g => (some { txn with providerOrderId := some g.id }, 200)
  | .error _ => (none, 500)

/-! ## Referral cycle engine -/

/-- One entry of the referrer's `referrals` array. -/
structure ReferralEntry where
  isActive : Bool
  subscriptionStatus : String
  deriving Repr, DecidableEq

/-- `referralStats` sub-document. -/
structure ReferralStats where
  totalReferrals : Int
  activeReferrals : Int
  deriving Repr, DecidableEq

/-- `milestoneRewards` sub-document (cycle counters). -/
structure MilestoneRewards where
  referral8Cycles : Int
  referral15Cycles : Int
  referral25Cycles : Int
  totalTokensEarned : Int
  deriving Repr, DecidableEq

/-- `temporaryTokens` sub-document, overwritten by a milestone grant. -/
structure TemporaryTokens where
  amount : Int
  grantedBy : String
  prizeType : String
  deriving Repr, DecidableEq

/-- The referrer-side fields touched by the milestone check. -/
structure Referrer where
  referralStats : ReferralStats
  milestoneRewards : MilestoneRewards
  referrals : List ReferralEntry
  temporaryTokens : TemporaryTokens
  unreadNotificationCount : Int
  deriving Repr, DecidableEq

/-- One milestone's configuration. -/
structure Milestone where
  target : Int
  reward : Int
  deriving Repr, DecidableEq

/-- `REFERRAL_MILESTONES` in insertion order: referral_8, referral_15,
referral_25. -/
def REFERRAL_MILESTONES : List (String × Milestone) :=
  [("referral_8", ⟨8, 300⟩), ("referral_15", ⟨15, 500⟩),
    ("referral_25", ⟨25, 1000⟩)]

/-- Read the cycle counter selected by `milestone.cycleField`. -/
def cyclesFor (m : MilestoneRewards) (key : String) : Int :=
  if key = "referral_8" then m.referral8Cycles
  else if key = "referral_15" then m.referral15Cycles
  else m.referral25Cycles

/-- Write the cycle counter selected by `milestone.cycleField`. -/
def setCycles (m : MilestoneRewards) (key : String) (v : Int) :
    MilestoneRewards :=
  if key = "referral_8" then { m with referral8Cycles := v }
  else if key = "referral_15" then { m with referral15Cycles := v }
  else { m with referral25Cycles := v }

/-- `grantMilestoneRewardAndReset`: overwrite `temporaryTokens` with the
reward, bump the milestone's cycle counter and `totalTokensEarned`, reset
`activeReferrals` to 0, flip every active referral entry to `cycled`, and
push a notification. -/
def grantMilestoneRewardAndReset (u : Referrer) (key : String)
    (m : Milestone) : Referrer :=
  let currentCycle := cyclesFor u.milestoneRewards key + 1
  { u with
    temporaryTokens :=
      { amount := m.reward
        grantedBy := "system"
        prizeType := key ++ "_cycle_" ++ toString currentCycle }
    milestoneRewards :=
      { setCycles u.milestoneRewards key currentCycle with
        totalTokensEarned := u.milestoneRewards.totalTokensEarned + m.reward }
    referralStats := { u.referralStats with activeReferrals := 0 }
    referrals :=
      u.referrals.map fun r =>
        if r.isActive then
          { r with isActive := false, subscriptionStatus := "cycled" }
        else r
    unreadNotificationCount := u.unreadNotificationCount + 1 }

/-- The `for ... break` loop body of `checkReferralMilestones`: the first
milestone whose target is reached is granted; the loop then stops. -/
def checkLoop : List (String × Milestone) → Referrer → Referrer
  | [], u => u
  | (key, m) :: rest, u =>
    if m.target ≤ u.referralStats.activeReferrals then
      grantMilestoneRewardAndReset u key m
    else checkLoop rest u

/-- `checkReferralMilestones(referrerId)` on an already-fetched referrer. -/
def checkReferralMilestones (u : Referrer) : Referrer :=
  checkLoop REFERRAL_MILESTONES u

/-! ## Claim theorems: deduction engine -/

/-- C1. For every account with an active subscription and every successful
call to `deductTokens`, the deduction debits the four buckets in the fixed
priority order daily → purchased → bonus → prize, taking
`min(remaining, bucket.current)` from each bucket, decrementing the bucket's
`current`, incrementing its used counter (`usedToday` for the daily bucket,
`used` for the others), and stopping when remaining reaches zero (the
breakdown sums to the requested amount). -/
theorem deductTokens_priority_order (u : User) (a now e : Int)
    (hend : u.subscription.endDate = some e) (hnow : ¬ e < now)
    (henough : a ≤ calculateTotalTokens u now) (ha : 0 ≤ a)
    (hdc : 0 ≤ u.dailyTokens.current) (hpc : 0 ≤ u.purchasedTokens.current)
    (hbc : 0 ≤ u.bonusTokens.current) (hzc : 0 ≤ u.prizeTokens.current) :
    ∃ u' b, deductTokens u a now = .ok u' b ∧
      b.daily = min a u.dailyTokens.current ∧
      b.purchased = min (a - b.daily) u.purchasedTokens.current ∧
      b.bonus = min (a - b.daily - b.purchased) u.bonusTokens.current ∧
      b.prize =
        min (a - b.daily - b.purchased - b.bonus) u.prizeTokens.current ∧
      b.daily + b.purchased + b.bonus + b.prize = a ∧
      u'.dailyTokens.current = u.dailyTokens.current - b.daily ∧
      u'.dailyTokens.usedToday = u.dailyTokens.usedToday + b.daily ∧
      u'.purchasedTokens.current = u.purchasedTokens.current - b.purchased ∧
      u'.purchasedTokens.used = u.purchasedTokens.used + b.purchased ∧
      u'.bonusTokens.current = u.bonusTokens.current - b.bonus ∧
      u'.bonusTokens.used = u.bonusTokens.used + b.bonus ∧
      u'.prizeTokens.current = u.prizeTokens.current - b.prize ∧
      u'.prizeTokens.used = u.prizeTokens.used + b.prize := by
  have hcalc := calcTotal_active u now e hend hnow
  have hd1 : deductDaily u a = min a u.dailyTokens.current :=
    takeFromBucket_eq_min _ _ ha hdc
  have hd1n : 0 ≤ deductDaily u a := takeFromBucket_nonneg _ _
  have hd1l : deductDaily u a ≤ a := takeFromBucket_le_left _ _ ha
  have hd2 : deductPurchased u a =
      min (a - deductDaily u a) u.purchasedTokens.current :=
    takeFromBucket_eq_min _ _ (by omega) hpc
  have hd2n : 0 ≤ deductPurchased u a := takeFromBucket_nonneg _ _
  have hd2l : deductPurchased u a ≤ a - deductDaily u a :=
    takeFromBucket_le_left _ _ (by omega)
  have hd3 : deductBonus u a =
      min (a - deductDaily u a - deductPurchased u a)
        u.bonusTokens.current :=
    takeFromBucket_eq_min _ _ (by omega) hbc
  have hd3n : 0 ≤ deductBonus u a := takeFromBucket_nonneg _ _
  have hd3l : deductBonus u a ≤ a - deductDaily u a - deductPurchased u a :=
    takeFromBucket_le_left _ _ (by omega)
  have hd4 : deductPrize u a =
      min (a - deductDaily u a - deductPurchased u a - deductBonus u a)
        u.prizeTokens.current :=
    takeFromBucket_eq_min _ _ (by omega) hzc
  have hsum : deductDaily u a + deductPurchased u a + deductBonus u a +
      deductPrize u a = a :=
    deduct_sum_eq u a ha (by omega)
  refine ⟨(applyDeduction u a now).1, (applyDeduction u a now).2,
    deductTokens_eq_ok u a now e hend hnow (by omega),
    ?_, ?_, ?_, ?_, ?_, rfl, rfl, rfl, rfl, rfl, rfl, rfl, rfl⟩
  · exact hd1
  · show deductPurchased u a = min (a - deductDaily u a) _
    exact hd2
  · show deductBonus u a =
      min (a - deductDaily u a - deductPurchased u a) _
    exact hd3
  · show deductPrize u a =
      min (a - deductDaily u a - deductPurchased u a - deductBonus u a) _
    exact hd4
  · exact hsum

/-- Witness for C1 at the spec's spillover fixture: daily=5, purchased=10,
bonus=0, prize=0 and a request of 8 yields breakdown
daily:5, purchased:3, bonus:0, prize:0. -/
theorem deductTokens_priority_order_witness :
    ∃ u' b, deductTokens spilloverUser 8 0 = .ok u' b ∧
      b.daily = 5 ∧ b.purchased = 3 ∧ b.bonus = 0 ∧ b.prize = 0 := by
  obtain ⟨u', b, hok, h1, h2, h3, h4, -⟩ :=
    deductTokens_priority_order spilloverUser 8 0 100 rfl (by decide)
      (by decide) (by decide) (by decide) (by decide) (by decide) (by decide)
  have e1 : spilloverUser.dailyTokens.current = 5 := rfl
  have e2 : spilloverUser.purchasedTokens.current = 10 := rfl
  have e3 : spilloverUser.bonusTokens.current = 0 := rfl
  have e4 : spilloverUser.prizeTokens.current = 0 := rfl
  rw [e1] at h1
  rw [e2] at h2
  rw [e3] at h3
  rw [e4] at h4
  refine ⟨u', b, hok, ?_, ?_, ?_, ?_⟩ <;> omega

/-- C4 counterexample: the claim quantifies over every amount, but a request
of -1 against an active account with 5 daily tokens succeeds, deducts
nothing from any bucket, and reports `tokensDeducted = -1`: the bucket sum
stays 5 (while sum-before minus deducted is 6) and the breakdown sums to 0,
not -1. -/
theorem deductTokens_negative_amount_counterexample :
    deductionOf spilloverUser (-1) 0 = some ⟨0, 0, 0, 0⟩ ∧
    bucketSum (deductAndSave spilloverUser (-1) 0) = 15 ∧
    bucketSum spilloverUser - (-1) ≠ 15 ∧
    ((0 : Int) + 0 + 0 + 0) ≠ -1 := by decide

/-- C4 (amended): every successful deduction of a nonnegative amount
preserves the total balance — the bucket sum drops by exactly the deducted
amount and the returned breakdown sums to the deducted amount. -/
theorem deductTokens_preserves_total (u u' : User) (b : DeductionBreakdown)
    (a now : Int) (ha : 0 ≤ a) (h : deductTokens u a now = .ok u' b) :
    bucketSum u - a = bucketSum u' ∧
      b.daily + b.purchased + b.bonus + b.prize = a := by
  obtain ⟨hu', hb, e, hend, hnow, henough⟩ :=
    deductTokens_ok_inv u u' b a now h
  have hcalc := calcTotal_active u now e hend hnow
  have hsum : deductDaily u a + deductPurchased u a + deductBonus u a +
      deductPrize u a = a :=
    deduct_sum_eq u a ha (by omega)
  subst hu' hb
  rw [applyDeduction_bucketSum, applyDeduction_snd]
  exact ⟨by omega, hsum⟩

/-- Witness for C4 (amended) at the spillover fixture: deducting 8 from
15 total leaves a bucket sum of 7 and a breakdown summing to 8. -/
theorem deductTokens_preserves_total_witness :
    bucketSum spilloverUser - 8 =
      bucketSum (deductAndSave spilloverUser 8 0) ∧
    (5 : Int) + 3 + 0 + 0 = 8 := by
  have h : deductTokens spilloverUser 8 0 =
      .ok (deductAndSave spilloverUser 8 0) ⟨5, 3, 0, 0⟩ := by decide
  have := deductTokens_preserves_total spilloverUser
    (deductAndSave spilloverUser 8 0) ⟨5, 3, 0, 0⟩ 8 0 (by decide) h
  exact this

/-- C5. `deductTokens` fails with the subscription-expired error whenever
the subscription is inactive (`!endDate || endDate < now`), and with the
insufficient-tokens error whenever the subscription is active but the total
available is below the request; in both failing cases the stored user — all
four buckets' `current` and used counters included — is unchanged. -/
theorem deductTokens_failure_modes (u : User) (a now : Int) :
    (subscriptionInactive u now →
      deductTokens u a now = .expired ∧ deductAndSave u a now = u) ∧
    (∀ e, u.subscription.endDate = some e → ¬ e < now →
      calculateTotalTokens u now < a →
      deductTokens u a now = .insufficient ∧ deductAndSave u a now = u) := by
  constructor
  · intro hinact
    have hexp : deductTokens u a now = .expired := by
      unfold deductTokens
      rcases hinact with hnone | ⟨e, hsome, hlt⟩
      · rw [hnone]
      · rw [hsome]
        dsimp only
        rw [if_pos hlt]
    refine ⟨hexp, ?_⟩
    unfold deductAndSave
    rw [hexp]
  · intro e hend hnow hlow
    have hins : deductTokens u a now = .insufficient := by
      unfold deductTokens
      rw [hend]
      dsimp only
      rw [if_neg hnow, if_pos hlow]
    refine ⟨hins, ?_⟩
    unfold deductAndSave
    rw [hins]

/-- Witness for C5: an account expired at time 0 is rejected at time 10 with
the expired error, and the active spillover account is rejected with the
insufficient error when asked for 99 of its 15 tokens; both leave the stored
user untouched. -/
theorem deductTokens_failure_modes_witness :
    (deductTokens expiredUser 5 10 = .expired ∧
      deductAndSave expiredUser 5 10 = expiredUser) ∧
    (deductTokens spilloverUser 99 0 = .insufficient ∧
      deductAndSave spilloverUser 99 0 = spilloverUser) :=
  ⟨(deductTokens_failure_modes expiredUser 5 10).1
      (Or.inr ⟨0, rfl, by decide⟩),
    (deductTokens_failure_modes spilloverUser 99 0).2 100 rfl (by decide)
      (by decide)⟩

/-! ## Claim theorems: total vs breakdown boundary -/

/-- C10 counterexample: at the boundary instant where `subscription.endDate`
equals the current time, `calculateTotalTokens` (strict `endDate < now`
check) returns the bucket sum while `getTokenBreakdown` (strict
`endDate > now` check) reports total 0, so the two disagree. -/
theorem totals_disagree_at_boundary :
    calculateTotalTokens boundaryUser 1000 = 1 ∧
    (getTokenBreakdown boundaryUser 1000).total = 0 ∧
    calculateTotalTokens boundaryUser 1000 ≠
      (getTokenBreakdown boundaryUser 1000).total := by decide

/-- C10 (amended): `calculateTotalTokens` and `getTokenBreakdown(...).total`
agree for every account whose `endDate` is not exactly the current instant;
at the boundary `endDate = now`, `calculateTotalTokens` returns the bucket
sum and `deductTokens` does not treat the subscription as expired, while
`getTokenBreakdown` reports the plan inactive with total 0. -/
theorem totals_agree_off_boundary (u : User) (now : Int) :
    (u.subscription.endDate ≠ some now →
      calculateTotalTokens u now = (getTokenBreakdown u now).total) ∧
    (u.subscription.endDate = some now →
      calculateTotalTokens u now = bucketSum u ∧
      (getTokenBreakdown u now).total = 0 ∧
      planActive u now = false ∧
      ∀ a, deductTokens u a now ≠ .expired) := by
  constructor
  · intro hne
    have htot : (getTokenBreakdown u now).total =
        if planActive u now then calculateTotalTokens u now else 0 := rfl
    cases hcase : u.subscription.endDate with
    | none =>
      rw [htot]
      unfold calculateTotalTokens planActive
      rw [hcase]
      simp
    | some e =>
      have hne' : e ≠ now := by
        intro h
        exact hne (by rw [hcase, h])
      have hcalc : calculateTotalTokens u now =
          if e < now then 0 else bucketSum u := by
        unfold calculateTotalTokens bucketSum
        rw [hcase]
      have hact : planActive u now = decide (now < e) := by
        unfold planActive
        rw [hcase]
      rw [htot, hact, hcalc]
      rcases lt_trichotomy e now with hlt | heq | hgt
      · simp [hlt, show ¬ now < e by omega]
      · exact absurd heq hne'
      · simp [show ¬ e < now by omega, hgt]
  · intro hb
    refine ⟨calcTotal_active u now now hb (by omega), ?_, ?_, ?_⟩
    · unfold getTokenBreakdown planActive
      rw [hb]
      simp
    · unfold planActive
      rw [hb]
      simp
    · intro a
      unfold deductTokens
      rw [hb]
      dsimp only
      rw [if_neg (by omega)]
      split <;> simp

/-- Witness for C10 (amended): off the boundary the two totals agree on the
spillover fixture, and on the boundary fixture the breakdown total is 0
while `calculateTotalTokens` still returns the bucket sum. -/
theorem totals_agree_off_boundary_witness :
    calculateTotalTokens spilloverUser 0 =
      (getTokenBreakdown spilloverUser 0).total ∧
    calculateTotalTokens boundaryUser 1000 = bucketSum boundaryUser ∧
    (getTokenBreakdown boundaryUser 1000).total = 0 :=
  ⟨(totals_agree_off_boundary spilloverUser 0).1 (by decide),
    ((totals_agree_off_boundary boundaryUser 1000).2 rfl).1,
    ((totals_agree_off_boundary boundaryUser 1000).2 rfl).2.1⟩

/-! ## Claim theorems: webhook idempotency -/

/-- A pending token transaction worth 50 tokens. -/
def pendingTxn50 : TokenTxn := ⟨"pending", 50⟩

/-- A user with an active subscription and a legacy balance of 15. -/
def txnUser : User := spilloverUser

/-- C2. The PhonePe token-purchase webhook has no terminal-state check:
delivering the same `COMPLETED` webhook twice for one transaction credits
`transaction.tokens` to the user twice — the second delivery re-enters the
completed branch, changes the balance again, and never produces an
"already processed" no-op (only the Razorpay verification handlers guard on
`status === "completed"`). -/
theorem processTokenWebhook_double_credit :
    (processTokenWebhook "COMPLETED" pendingTxn50 txnUser).1.status =
      "completed" ∧
    (processTokenWebhook "COMPLETED" pendingTxn50 txnUser).2.tokens = 65 ∧
    (processTokenWebhook "COMPLETED"
        (processTokenWebhook "COMPLETED" pendingTxn50 txnUser).1
        (processTokenWebhook "COMPLETED" pendingTxn50 txnUser).2).2.tokens =
      115 ∧
    (processTokenWebhook "COMPLETED"
        (processTokenWebhook "COMPLETED" pendingTxn50 txnUser).1
        (processTokenWebhook "COMPLETED" pendingTxn50 txnUser).2).2 ≠
      (processTokenWebhook "COMPLETED" pendingTxn50 txnUser).2 := by decide

/-! ## Claim theorems: subscription activation -/

/-- C3 counterexample: on the scenario plan (quota 100, 30 days, bonus 500)
the Razorpay activation for a new account leaves `dailyTokens.current` at
its schema default 0 — not at the plan quota — so the post-webhook total is
500 (bonus only), not 600. -/
theorem activation_leaves_daily_bucket_empty :
    (verifySubscriptionNewUser scenarioPlan 0).dailyTokens.current = 0 ∧
    (verifySubscriptionNewUser scenarioPlan 0).bonusTokens.current = 500 ∧
    calculateTotalTokens (verifySubscriptionNewUser scenarioPlan 0) 0 = 500 ∧
    (verifySubscriptionNewUser scenarioPlan 0).dailyTokens.current ≠ 100 ∧
    calculateTotalTokens (verifySubscriptionNewUser scenarioPlan 0) 0 ≠
      600 := by decide

/-- C3 (amended): a `COMPLETED` subscription payment sets
`startDate = now`, `endDate = now + plan.durationDays` (in ms),
`subscription.dailyTokens` to the plan quota, `isActive = true` and the
legacy `tokens` field to the plan quota; the Razorpay path additionally
resets the bonus bucket to the plan's bonus amount. No path fills the daily
bucket (`dailyTokens.current` stays at its previous value for an existing
account and at the schema default 0 for a new one, until the daily refresh
job runs), the PhonePe webhook path grants no bonus, and the purchased and
prize buckets are untouched; on the scenario plan a new account therefore
ends with `daily.current = 0`, `bonus.current = 500` and total 500. -/
theorem subscription_activation_effects (u : User) (plan : Plan)
    (now : Int) :
    (processSubscriptionWebhookUser u plan now).subscription.startDate =
        some now ∧
    (processSubscriptionWebhookUser u plan now).subscription.endDate =
        some (now + plan.durationDays * msPerDay) ∧
    (processSubscriptionWebhookUser u plan now).subscription.dailyTokens =
        plan.dailyTokens ∧
    (processSubscriptionWebhookUser u plan now).subscription.isActive =
        true ∧
    (processSubscriptionWebhookUser u plan now).tokens = plan.dailyTokens ∧
    (processSubscriptionWebhookUser u plan now).dailyTokens =
        u.dailyTokens ∧
    (processSubscriptionWebhookUser u plan now).bonusTokens =
        u.bonusTokens ∧
    (processSubscriptionWebhookUser u plan now).purchasedTokens =
        u.purchasedTokens ∧
    (processSubscriptionWebhookUser u plan now).prizeTokens =
        u.prizeTokens ∧
    (verifySubscriptionRenewUser u plan now).subscription.endDate =
        some (now + plan.durationDays * msPerDay) ∧
    (verifySubscriptionRenewUser u plan now).subscription.isActive = true ∧
    (verifySubscriptionRenewUser u plan now).bonusTokens.current =
        plan.bonusTokens ∧
    (verifySubscriptionRenewUser u plan now).dailyTokens = u.dailyTokens ∧
    (verifySubscriptionRenewUser u plan now).purchasedTokens =
        u.purchasedTokens ∧
    (verifySubscriptionRenewUser u plan now).prizeTokens = u.prizeTokens ∧
    (verifySubscriptionNewUser plan now).dailyTokens.current = 0 ∧
    (verifySubscriptionNewUser plan now).bonusTokens.current =
        plan.bonusTokens ∧
    (verifySubscriptionNewUser plan now).tokens = plan.dailyTokens :=
  ⟨rfl, rfl, rfl, rfl, rfl, rfl, rfl, rfl, rfl, rfl, rfl, rfl, rfl, rfl,
    rfl, rfl, rfl, rfl⟩

/-! ## Claim theorems: renewal window -/

/-- C6. Every renewal path recomputes `endDate = now + plan.durationDays`
(in ms) from the current instant, whatever the old `endDate` was — past or
future — so remaining days are never added: the resulting window does not
depend on the previous subscription state at all. -/
theorem renewal_resets_window (u v : User) (plan : Plan) (now : Int) :
    (verifySubscriptionRenewUser u plan now).subscription.endDate =
        some (now + plan.durationDays * msPerDay) ∧
    (processSubscriptionWebhookUser u plan now).subscription.endDate =
        some (now + plan.durationDays * msPerDay) ∧
    (dummyWebhookRenewUser u plan now).subscription.endDate =
        some (now + plan.durationDays * msPerDay) ∧
    (verifySubscriptionRenewUser u plan now).subscription.endDate =
        (verifySubscriptionRenewUser v plan now).subscription.endDate ∧
    (verifySubscriptionRenewUser u plan now).subscription.startDate =
        some now :=
  ⟨rfl, rfl, rfl, rfl, rfl⟩

/-! ## Claim theorems: referral milestone cycle -/

/-- C7. When a referrer's `activeReferrals` reaches a milestone target, one
milestone check grants exactly one reward (the first satisfied milestone in
the fixed order 8, 15, 25 — so the `referral_8` cycle even when several
targets hold simultaneously), increments only that milestone's cycle
counter, resets `activeReferrals` to 0, marks every currently-active
referral entry as `cycled`, and a second identical check without new
referrals is a no-op. -/
theorem referral_milestone_cycle (u : Referrer)
    (h : 8 ≤ u.referralStats.activeReferrals) :
    (checkReferralMilestones u).milestoneRewards.referral8Cycles = u.milestoneRewards.referral8Cycles + 1 ∧
    (checkReferralMilestones u).milestoneRewards.referral15Cycles = u.milestoneRewards.referral15Cycles ∧
    (checkReferralMilestones u).milestoneRewards.referral25Cycles = u.milestoneRewards.referral25Cycles ∧
    (checkReferralMilestones u).milestoneRewards.totalTokensEarned = u.milestoneRewards.totalTokensEarned + 300 ∧
    (checkReferralMilestones u).temporaryTokens.amount = 300 ∧
    (checkReferralMilestones u).referralStats.activeReferrals = 0 ∧
    (checkReferralMilestones u).referrals =
        u.referrals.map (fun r =>
          if r.isActive then
            { r with isActive := false, subscriptionStatus := "cycled" }
          else r) ∧
    checkReferralMilestones (checkReferralMilestones u) =
        checkReferralMilestones u := by
  have hgrant : checkReferralMilestones u =
      grantMilestoneRewardAndReset u "referral_8" ⟨8, 300⟩ := by
    unfold checkReferralMilestones REFERRAL_MILESTONES checkLoop
    rw [if_pos h]
  have hactive :
      (grantMilestoneRewardAndReset u "referral_8" ⟨8, 300⟩).referralStats.activeReferrals = 0 := rfl
  have hsecond :
      checkReferralMilestones (grantMilestoneRewardAndReset u "referral_8" ⟨8, 300⟩) =
        grantMilestoneRewardAndReset u "referral_8" ⟨8, 300⟩ := by
    simp [checkReferralMilestones, REFERRAL_MILESTONES, checkLoop, hactive]
  rw [hgrant]
  refine ⟨?_, ?_, ?_, ?_, rfl, rfl, rfl, hsecond⟩
  · show (setCycles u.milestoneRewards "referral_8"
        (cyclesFor u.milestoneRewards "referral_8" + 1)).referral8Cycles = _
    unfold setCycles cyclesFor
    simp
  · show (setCycles u.milestoneRewards "referral_8"
        (cyclesFor u.milestoneRewards "referral_8" + 1)).referral15Cycles = _
    unfold setCycles cyclesFor
    simp
  · show (setCycles u.milestoneRewards "referral_8"
        (cyclesFor u.milestoneRewards "referral_8" + 1)).referral25Cycles = _
    unfold setCycles cyclesFor
    simp
  · rfl

/-- A referrer at the 8-referral target with one active and one pending
referral entry. -/
def sampleReferrer : Referrer :=
  { referralStats := ⟨10, 8⟩
    milestoneRewards := ⟨0, 0, 0, 0⟩
    referrals := [⟨true, "active"⟩, ⟨false, "pending"⟩]
    temporaryTokens := ⟨0, "", ""⟩
    unreadNotificationCount := 0 }

/-- Witness for C7 at a referrer with exactly 8 active referrals: one cycle
is recorded, the counter resets, the active entry is cycled, and a repeated
check changes nothing. -/
theorem referral_milestone_cycle_witness :
    (checkReferralMilestones sampleReferrer).milestoneRewards.referral8Cycles = 1 ∧
    (checkReferralMilestones sampleReferrer).referralStats.activeReferrals = 0 ∧
    (checkReferralMilestones sampleReferrer).referrals =
        [⟨false, "cycled"⟩, ⟨false, "pending"⟩] ∧
    checkReferralMilestones (checkReferralMilestones sampleReferrer) =
        checkReferralMilestones sampleReferrer := by
  obtain ⟨h1, -, -, -, -, h6, h7, h8⟩ :=
    referral_milestone_cycle sampleReferrer (by decide)
  refine ⟨?_, h6, ?_, h8⟩
  · rw [h1]
    decide
  · rw [h7]
    rfl

/-! ## Claim theorems: webhook signature rejection -/

/-- C8 counterexample: on a signature mismatch the PhonePe webhook handler
responds with HTTP 401, not the claimed 200 (the 200 fallback is reserved
for parse failures after a valid signature); state is still untouched. -/
theorem webhook_invalid_signature_status :
    handleWebhook (some "SHA256 wrong") "expected" true =
      (⟨401, false⟩, false) ∧
    (401 : Int) ≠ 200 := by decide

/-- C8 (amended): for every incoming webhook whose signature verification
fails, the handler rejects the request with HTTP 401 Unauthorized (not 200)
and never starts the processing path, so no order, transaction or account
state is mutated. -/
theorem webhook_invalid_signature_rejected (authHeader : Option String)
    (expectedHash : String) (payloadValid : Bool)
    (hbad : verifyWebhookSignature authHeader expectedHash = false) :
    handleWebhook authHeader expectedHash payloadValid =
      (⟨401, false⟩, false) := by
  unfold handleWebhook
  rw [hbad]
  simp

/-- Witness for C8 (amended) at a concrete mismatching header. -/
theorem webhook_invalid_signature_rejected_witness :
    handleWebhook (some "SHA256 wrong") "right" true =
      (⟨401, false⟩, false) :=
  webhook_invalid_signature_rejected (some "SHA256 wrong") "right" true
    (by decide)

/-! ## Claim theorems: purchase-initiation rollback -/

/-- C9 counterexample: when the gateway's order creation fails, the Razorpay
token top-up flow (and likewise the PhonePe one) responds 500 but leaves
the pending TokenTransaction in the database — no rollback happens there. -/
theorem token_order_creation_no_rollback :
    (createTokenOrder (.error "gateway failure")).1 =
      some ⟨"pending", none⟩ ∧
    (createTokenOrder (.error "gateway failure")).1 ≠ none ∧
    (createTokenPayment (.error "gateway failure")).1 =
      some ⟨"pending", none⟩ := by decide

/-- C9 (amended): when the gateway's order-creation call fails after the
local pending record was created, the subscription checkout flow
(`createOrder`, which deletes the pending Order) and the session-based
token purchase flow (`createTokenPurchase`, which aborts the mongoose
transaction holding the pending save) roll the record back, so no local
record remains there; but the two token top-up flows cited by the spec
(`createTokenOrder` on Razorpay and `createTokenPayment` on PhonePe)
respond 500 and leave their pending TokenTransaction in place. -/
theorem purchase_rollback_per_flow (e : String) :
    createOrder (.error e) = (none, 500) ∧
    createTokenPurchase (.error e) = (none, 500) ∧
    createTokenOrder (.error e) = (some ⟨"pending", none⟩, 500) ∧
    createTokenPayment (.error e) = (some ⟨"pending", none⟩, 500) :=
  ⟨rfl, rfl, rfl, rfl⟩

end ClientSure
